import Mathlib

set_option maxRecDepth 8000

/-!
Verification of the DDC/CI engine of `ddc_usb` (files `ddc_usb.py` and the
earlier revision `ddc-ftdi.py`).

The development shallowly embeds the frame codec (`DDCInterface._checksum`,
`_write_once`, `_read_once`), the retry wrapper (`DDCInterface._retry`), the
protocol operations (`get_value`, `set_value`), the capability parser
(`DDCParser._parse_tree`, `_unparse_tree`, `_convert_blobtree`,
`parse_capabilities`), the VCP registry (`VCPCode._codes`, `VCPCode._lookup`,
`DDCSession._get_vcp_code`, `_get_value_code`) and the session policy
(`DDCSession.getset`).  Bytes are naturals (0..255 where it matters), Python
exceptions are `Option`/`Except` error values, and the byte transport is an
abstract stream of bytes.  Recursive parsers carry a fuel argument so that all
definitions compute inside the kernel; callers pass fuel that provably cannot
run out on the inputs in question.
-/

namespace DdcUsb

/-! ## Frame codec: `DDCInterface._checksum`, `_write_once` framing -/

/-- XOR fold over a byte list, the `for c in data: checksum ^= c` loop of
`DDCInterface._checksum`. -/
def xorAll (data : List Nat) : Nat :=
  data.foldl (fun acc c => acc ^^^ c) 0

/-- `DDCInterface._checksum(data, destination_address)`.  The XOR of all bytes;
when a destination override is given the first byte is XORed out again and the
override XORed in (`checksum ^ data[0] ^ destination_address`).  Python raises
`IndexError` on `data[0]` when `data` is empty and an override is given; that
failure is `none`. -/
def ddcChecksum (data : List Nat) (destination : Option Nat) : Option Nat :=
  match destination with
  | none => some (xorAll data)
  | some d =>
    match data with
    | [] => none
    | b0 :: _ => some (xorAll data ^^^ b0 ^^^ d)

/-- The framing step of `DDCInterface._write_once`:
`x = message + bytes({DDCInterface._checksum(message)})`. -/
def writeFrame (message : List Nat) : List Nat :=
  message ++ [xorAll message]

/-- Framing of a device reply under the 0x50 virtual-host convention: the
checksum appended by the device is computed as if the message were addressed
to the virtual host 0x50 (the convention that `_read_once` re-derives with its
`destination_address=0x50` override).  `none` when the body is empty. -/
def frameVirtual (b : List Nat) : Option (List Nat) :=
  (ddcChecksum b (some 0x50)).map (fun c => b ++ [c])

/-- Deframing as done by the read path: accept `raw` iff
`_checksum(raw, destination_address=0x50)` is zero, and strip the trailing
checksum byte. -/
def deframe (raw : List Nat) : Option (List Nat) :=
  match ddcChecksum raw (some 0x50) with
  | some 0 => some raw.dropLast
  | _ => none

theorem xor_left_comm (x y z : Nat) : x ^^^ (y ^^^ z) = y ^^^ (x ^^^ z) := by
  rw [← Nat.xor_assoc, Nat.xor_comm x y, Nat.xor_assoc]

theorem foldl_xor_init (ys : List Nat) (acc : Nat) :
    ys.foldl (fun a c => a ^^^ c) acc = acc ^^^ ys.foldl (fun a c => a ^^^ c) 0 := by
  induction ys generalizing acc with
  | nil => simp
  | cons y ys ih =>
    simp only [List.foldl_cons]
    rw [ih (acc ^^^ y), ih (0 ^^^ y)]
    simp [Nat.xor_assoc]

theorem xorAll_append (xs ys : List Nat) :
    xorAll (xs ++ ys) = xorAll xs ^^^ xorAll ys := by
  simp only [xorAll, List.foldl_append]
  exact foldl_xor_init ys (xs.foldl (fun a c => a ^^^ c) 0)

theorem xorAll_singleton (a : Nat) : xorAll [a] = a := by
  simp [xorAll]

theorem xorAll_bound (data : List Nat) (h : ∀ b ∈ data, b < 256) :
    xorAll data < 256 := by
  suffices H : ∀ (l : List Nat) (acc : Nat), acc < 256 → (∀ b ∈ l, b < 256) →
      l.foldl (fun a c => a ^^^ c) acc < 256 by
    exact H data 0 (by norm_num) h
  intro l
  induction l with
  | nil => intro acc hacc _; simpa using hacc
  | cons x xs ih =>
    intro acc hacc hl
    simp only [List.foldl_cons]
    exact ih (acc ^^^ x)
      (Nat.xor_lt_two_pow (n := 8) hacc (hl x (List.mem_cons_self x xs)))
      (fun b hb => hl b (List.mem_cons_of_mem x hb))

/-- C1.  The XOR checksum is self-inverse: appending a message's checksum
yields a sequence whose checksum is zero; consequently a nonempty device reply
framed under the 0x50 virtual-host convention deframes successfully (its
0x50-override checksum is zero) and the original body is recovered. -/
theorem checksum_self_inverse_roundtrip (a b : List Nat) (hb : b ≠ []) :
    xorAll (a ++ [xorAll a]) = 0 ∧
    (frameVirtual b).bind deframe = some b := by
  constructor
  · rw [xorAll_append, xorAll_singleton, Nat.xor_self]
  · obtain ⟨b0, bt, rfl⟩ : ∃ b0 bt, b = b0 :: bt := by
      cases b with
      | nil => exact absurd rfl hb
      | cons x xs => exact ⟨x, xs, rfl⟩
    have hchk : ddcChecksum ((b0 :: bt) ++ [xorAll (b0 :: bt) ^^^ b0 ^^^ 0x50])
        (some 0x50) = some 0 := by
      show some (xorAll ((b0 :: bt) ++ [xorAll (b0 :: bt) ^^^ b0 ^^^ 0x50]) ^^^ b0 ^^^ 0x50)
        = some 0
      congr 1
      rw [xorAll_append, xorAll_singleton]
      simp [Nat.xor_assoc, Nat.xor_comm, xor_left_comm, Nat.xor_self,
        Nat.xor_cancel_left, Nat.xor_cancel_right]
    calc (frameVirtual (b0 :: bt)).bind deframe
        = deframe ((b0 :: bt) ++ [xorAll (b0 :: bt) ^^^ b0 ^^^ 0x50]) := rfl
      _ = some (((b0 :: bt) ++ [xorAll (b0 :: bt) ^^^ b0 ^^^ 0x50]).dropLast) := by
          simp only [deframe, hchk]
      _ = some (b0 :: bt) := by rw [List.dropLast_concat]

/-- C1 witness at a concrete input. -/
theorem checksum_self_inverse_roundtrip_witness :
    xorAll ([1, 2, 3] ++ [xorAll [1, 2, 3]]) = 0 ∧
    (frameVirtual [0x6F, 0x6E, 0x81, 0x07]).bind deframe = some [0x6F, 0x6E, 0x81, 0x07] :=
  checksum_self_inverse_roundtrip [1, 2, 3] [0x6F, 0x6E, 0x81, 0x07] (by decide)

/-- C10.  `_checksum` is total on every nonempty byte sequence, and on every
byte sequence at all when no destination override is given; the result is a
single byte (0..255) whenever the input bytes and the override are bytes, so
the `bytes({checksum})` append in `_write_once` cannot fail, and the framed
message is again a sequence of bytes. -/
theorem checksum_total_byte (data : List Nat) (dest : Option Nat)
    (hb : ∀ b ∈ data, b < 256) (hd : ∀ d ∈ dest, d < 256) :
    (data ≠ [] ∨ dest = none → ∃ c, ddcChecksum data dest = some c ∧ c ≤ 255) ∧
    (∀ b ∈ writeFrame data, b < 256) := by
  constructor
  · rintro (hne | rfl)
    · cases dest with
      | none => exact ⟨xorAll data, rfl, Nat.lt_succ_iff.mp (xorAll_bound data hb)⟩
      | some d =>
        cases data with
        | nil => exact absurd rfl hne
        | cons b0 bt =>
          refine ⟨xorAll (b0 :: bt) ^^^ b0 ^^^ d, rfl, Nat.lt_succ_iff.mp ?_⟩
          exact Nat.xor_lt_two_pow (n := 8)
            (Nat.xor_lt_two_pow (n := 8) (xorAll_bound _ hb) (hb b0 (List.mem_cons_self b0 bt)))
            (hd d rfl)
    · exact ⟨xorAll data, rfl, Nat.lt_succ_iff.mp (xorAll_bound data hb)⟩
  · intro b hbmem
    rcases List.mem_append.mp hbmem with h | h
    · exact hb b h
    · rcases List.mem_singleton.mp h with rfl
      exact xorAll_bound data hb

/-- C10 witness at a concrete input. -/
theorem checksum_total_byte_witness :
    ((0x6E, 0x51, 0x82) = (0x6E, 0x51, 0x82) ∧
      ∃ c, ddcChecksum [0x6E, 0x51, 0x82, 0x01, 0x10] (some 0x50) = some c ∧ c ≤ 255) ∧
    (∀ b ∈ writeFrame [0x6E, 0x51, 0x82, 0x01, 0x10], b < 256) := by
  have h := checksum_total_byte [0x6E, 0x51, 0x82, 0x01, 0x10] (some 0x50)
    (by decide) (by decide)
  exact ⟨⟨rfl, h.1 (Or.inl (by decide))⟩, h.2⟩

/-! ## Retry wrapper: `DDCInterface._retry` -/

/-- The attempt loop of `DDCInterface._retry`.  `fn i` is the outcome of the
`(i+1)`-th invocation of the wrapped function (the transport's state may differ
between invocations, hence the index).  The state is the remaining number of
attempts, the number of calls made so far, and `saved_exception`; the result
pairs the final outcome with the total number of invocations.  `Except.error
none` is Python's `raise saved_exception` with `saved_exception = None` (never
reached when at least one attempt is allowed). -/
def retryRun {E A : Type} (fn : Nat → Except E A) :
    Nat → Nat → Option E → Except (Option E) A × Nat
  | 0, calls, saved => (Except.error saved, calls)
  | rem + 1, calls, _saved =>
    match fn calls with
    | Except.ok a => (Except.ok a, calls + 1)
    | Except.error e => retryRun fn rem (calls + 1) (some e)

/-- `DDCInterface._retry(fn)`: up to `retries + 1` attempts starting with no
saved exception.  The interface fixes `self._retries = 3`. -/
def ddcRetry {E A : Type} (retries : Nat) (fn : Nat → Except E A) :
    Except (Option E) A × Nat :=
  retryRun fn (retries + 1) 0 none

/-- C2.  With the interface's `retries = 3`: if the wrapped function fails on
its first `k - 1` invocations and succeeds on invocation `k` (`k ≤ 4`), the
wrapper makes exactly `k` invocations and returns the successful result; if it
fails on all four invocations, the wrapper makes exactly 4 invocations and
re-raises exactly the error of the last attempt. -/
theorem retry_policy (E A : Type) :
    (∀ (fn : Nat → Except E A) (k : Nat) (a : A), 1 ≤ k → k ≤ 4 →
      (∀ i, i < k - 1 → ∃ e, fn i = Except.error e) → fn (k - 1) = Except.ok a →
      ddcRetry 3 fn = (Except.ok a, k)) ∧
    (∀ (fn : Nat → Except E A) (es : Nat → E), (∀ i, i ≤ 3 → fn i = Except.error (es i)) →
      ddcRetry 3 fn = (Except.error (some (es 3)), 4)) := by
  constructor
  · intro fn k a hk1 hk4 hfail hsucc
    interval_cases k
    · simp only [ddcRetry, retryRun]
      rw [show (1 : Nat) - 1 = 0 from rfl] at hsucc
      rw [hsucc]
    · obtain ⟨e0, h0⟩ := hfail 0 (by norm_num)
      simp only [ddcRetry, retryRun]
      rw [h0, hsucc]
    · obtain ⟨e0, h0⟩ := hfail 0 (by norm_num)
      obtain ⟨e1, h1⟩ := hfail 1 (by norm_num)
      simp only [ddcRetry, retryRun]
      rw [h0, h1, hsucc]
    · obtain ⟨e0, h0⟩ := hfail 0 (by norm_num)
      obtain ⟨e1, h1⟩ := hfail 1 (by norm_num)
      obtain ⟨e2, h2⟩ := hfail 2 (by norm_num)
      simp only [ddcRetry, retryRun]
      rw [h0, h1, h2, hsucc]
  · intro fn es h
    have h0 := h 0 (by norm_num)
    have h1 := h 1 (by norm_num)
    have h2 := h 2 (by norm_num)
    have h3 := h 3 (by norm_num)
    simp only [ddcRetry, retryRun]
    rw [h0, h1, h2, h3]

/-- C2 witness: a function failing twice then succeeding makes exactly three
invocations and succeeds; one failing always makes exactly four invocations and
surfaces the last error. -/
theorem retry_policy_witness :
    ddcRetry 3 (fun i => if i < 2 then Except.error (10 + i) else Except.ok 7) =
      (Except.ok 7, 3) ∧
    ddcRetry 3 (fun i => (Except.error (20 + i) : Except Nat Nat)) =
      (Except.error (some 23), 4) := by
  constructor
  · exact (retry_policy Nat Nat).1 _ 3 7 (by norm_num) (by norm_num)
      (fun i hi => ⟨10 + i, by interval_cases i <;> rfl⟩) rfl
  · exact (retry_policy Nat Nat).2 _ (fun i => 20 + i) (fun i _ => rfl)

/-! ## Read path: `DDCInterface._read_once` in both revisions -/

/-- Errors raised by `_read_once` (`IOError`s in the source). -/
inductive ReadError where
  | unexpectedAddress : Nat → ReadError
  | badChecksum : ReadError
  | nullMessage : ReadError
deriving DecidableEq

deriving instance DecidableEq for Except

/-- The buffer `_read_once` assembles from the transport stream `s` (byte `s i`
is the `(i+1)`-th byte the transport yields): a synthesized destination byte
0x6F, the two bytes of the first `read(2)`, then `(data[2] & 0x7F) + 1` bytes
of the second read. -/
def readAssemble (s : Nat → Nat) : List Nat :=
  0x6F :: s 0 :: s 1 :: (List.range ((s 1 &&& 0x7F) + 1)).map (fun i => s (2 + i))

/-- `DDCInterface._read_once` of `ddc_usb.py`: reject a source address other
than 0x6E, reject a bad 0x50-override checksum, reject the NULL message
`6F 6E 80 BE`, otherwise return the whole assembled message. -/
def read_once (s : Nat → Nat) : Except ReadError (List Nat) :=
  if s 0 ≠ 0x6E then Except.error (ReadError.unexpectedAddress (s 0))
  else if ddcChecksum (readAssemble s) (some 0x50) ≠ some 0 then
    Except.error ReadError.badChecksum
  else if readAssemble s = [0x6F, 0x6E, 0x80, 0xBE] then Except.error ReadError.nullMessage
  else Except.ok (readAssemble s)

/-- `DDCInterface._read_once` of the earlier revision `ddc-ftdi.py`: identical
except that there is no NULL-message check. -/
def ftdi_read_once (s : Nat → Nat) : Except ReadError (List Nat) :=
  if s 0 ≠ 0x6E then Except.error (ReadError.unexpectedAddress (s 0))
  else if ddcChecksum (readAssemble s) (some 0x50) ≠ some 0 then
    Except.error ReadError.badChecksum
  else Except.ok (readAssemble s)

/-- The transport byte stream that produces the NULL message: the device sends
source 0x6E, length byte 0x80 (zero payload), checksum 0xBE. -/
def nullStream : Nat → Nat := fun i => [0x6E, 0x80, 0xBE].getD i 0

/-- C3 counterexample.  In the `ddc-ftdi.py` revision the sentinel sequence
`6F 6E 80 BE` passes the checksum test and IS returned as a successful result
of the read path, so the claim's "(in either source revision)" fails. -/
theorem ftdi_read_once_returns_sentinel :
    ftdi_read_once nullStream = Except.ok [0x6F, 0x6E, 0x80, 0xBE] := rfl

/-- C3 (amended to `ddc_usb.py`).  In `ddc_usb.py` the read path never returns
the sentinel `6F 6E 80 BE` as a successful result, and whenever the transport
yields exactly the sentinel's bytes the read raises the distinguished
NULL-message error. -/
theorem read_once_sentinel_error :
    (∀ s, read_once s ≠ Except.ok [0x6F, 0x6E, 0x80, 0xBE]) ∧
    (∀ s, s 0 = 0x6E → s 1 = 0x80 → s 2 = 0xBE →
      read_once s = Except.error ReadError.nullMessage) := by
  constructor
  · intro s h
    unfold read_once at h
    split_ifs at h with h1 h2 h3
    have hdata := Except.ok.inj h
    exact h3 hdata
  · intro s h0 h1 h2
    have hasm : readAssemble s = [0x6F, 0x6E, 0x80, 0xBE] := by
      unfold readAssemble
      rw [h0, h1]
      rw [show ((0x80 : Nat) &&& 0x7F) + 1 = 1 from rfl]
      rw [show List.range 1 = [0] from rfl]
      simp only [List.map_cons, List.map_nil, Nat.add_zero]
      rw [h2]
    unfold read_once
    rw [hasm, h0]
    decide

/-- C3 witness: the concrete sentinel stream raises the NULL-message error in
`ddc_usb.py`. -/
theorem read_once_sentinel_error_witness :
    read_once nullStream = Except.error ReadError.nullMessage :=
  read_once_sentinel_error.2 nullStream rfl rfl rfl

/-- C9.  Every successful `_read_once` result `d` starts with the synthesized
destination byte 0x6F and the mandatory source byte 0x6E, has length exactly
`4 + (d[2] & 0x7F)` (three header bytes, `d[2] & 0x7F` payload bytes, one
checksum byte), has a zero checksum under the 0x50 destination override, and is
not the NULL sentinel. -/
theorem read_once_postcondition (s : Nat → Nat) (d : List Nat)
    (h : read_once s = Except.ok d) :
    d.take 2 = [0x6F, 0x6E] ∧ d.length = 4 + (d.getD 2 0 &&& 0x7F) ∧
    ddcChecksum d (some 0x50) = some 0 ∧ d ≠ [0x6F, 0x6E, 0x80, 0xBE] := by
  unfold read_once at h
  split_ifs at h with h1 h2 h3
  have hdata := Except.ok.inj h
  subst hdata
  push_neg at h1 h2
  refine ⟨?_, ?_, h2, h3⟩
  · simp [readAssemble, h1]
  · simp only [readAssemble, List.length_cons, List.length_map, List.length_range,
      List.getD_cons_succ, List.getD_cons_zero]
    omega

/-- C9 witness: a concrete well-formed reply stream (source 0x6E, length byte
0x81, payload 0x00, checksum 0xBF). -/
theorem read_once_postcondition_witness :
    ([0x6F, 0x6E, 0x81, 0x00, 0xBF] : List Nat).take 2 = [0x6F, 0x6E] ∧
    ([0x6F, 0x6E, 0x81, 0x00, 0xBF] : List Nat).length =
      4 + (([0x6F, 0x6E, 0x81, 0x00, 0xBF] : List Nat).getD 2 0 &&& 0x7F) ∧
    ddcChecksum [0x6F, 0x6E, 0x81, 0x00, 0xBF] (some 0x50) = some 0 ∧
    ([0x6F, 0x6E, 0x81, 0x00, 0xBF] : List Nat) ≠ [0x6F, 0x6E, 0x80, 0xBE] :=
  read_once_postcondition (fun i => [0x6E, 0x81, 0x00, 0xBF].getD i 0) _ (by decide)

/-! ## Protocol operations: `DDCInterface.get_value`, `set_value`, and the
`DDCSession.getset` policy -/

/-- The result dictionary built by `DDCInterface.get_value`. -/
structure VcpReply where
  errno : Nat
  opcode : Nat
  vtype : Nat
  maximum : Nat
  value : Nat
deriving DecidableEq

/-- The `ValueError`s `get_value` can raise. -/
inductive GetValueError where
  | invalidControl : GetValueError
  | unexpectedLength : GetValueError
  | unexpectedOpcode : GetValueError
deriving DecidableEq

/-- `DDCInterface.get_value(control)`, with `data` the reply the transport
query would deliver.  The control-range check precedes the query, so an
out-of-range control fails without consulting `data` at all; then the reply
must have length 12 and reply-type opcode `data[3] == 0x02`; the error flag
`data[4]`, echoed control `data[5]`, type, maximum and current value (16-bit
big-endian, `int.from_bytes(data[i:i+2], "big") = 256*data[i] + data[i+1]`)
are packed into the result without further checks. -/
def get_value (control : Int) (data : List Nat) : Except GetValueError VcpReply :=
  if control > 255 ∨ control < 0 then Except.error GetValueError.invalidControl
  else if data.length ≠ 12 then Except.error GetValueError.unexpectedLength
  else if data.getD 3 0 ≠ 0x02 then Except.error GetValueError.unexpectedOpcode
  else Except.ok ⟨data.getD 4 0, data.getD 5 0, data.getD 6 0,
    256 * data.getD 7 0 + data.getD 8 0, 256 * data.getD 9 0 + data.getD 10 0⟩

/-- C5 counterexample.  A 12-byte reply with correct reply opcode (`data[3] =
0x02`) but a NON-zero error flag (`data[4] = 1`) and an echoed control of 0x10:
`get_value` returns normally, packing errno 1 into the result, instead of
raising an unexpected-reply error as the claim requires when the error flag is
wrong. -/
theorem get_value_ok_despite_error_flag :
    get_value 0x10 [0x6F, 0x6E, 0x88, 0x02, 0x01, 0x10, 0x00, 0x00, 0x64, 0x00, 0x32, 0x00] =
      Except.ok ⟨1, 16, 0, 100, 50⟩ ∧ (1 : Nat) ≠ 0 := by decide

/-- C5 (amended).  For every control outside 0..255 `get_value` fails with the
invalid-control error independent of any reply (hence before - and without -
any transport I/O, so the bounded retry never sees it); for an in-range
control it returns normally iff the reply has length 12 and reply opcode
`data[3] = 0x02` - the error flag and the echoed control code are not checked
here but surfaced in the result for the caller. -/
theorem get_value_checks (control : Int) (data data2 : List Nat) :
    (control > 255 ∨ control < 0 →
      get_value control data = Except.error GetValueError.invalidControl ∧
      get_value control data = get_value control data2) ∧
    (¬(control > 255 ∨ control < 0) →
      ((∃ r, get_value control data = Except.ok r) ↔
        data.length = 12 ∧ data.getD 3 0 = 0x02)) := by
  constructor
  · intro h
    constructor
    · simp [get_value, h]
    · simp [get_value, h]
  · intro h
    simp only [get_value, if_neg h]
    split_ifs with hl ho
    · exact iff_of_false (by rintro ⟨r, hr⟩; simp at hr) (by rintro ⟨h12, -⟩; exact hl h12)
    · exact iff_of_false (by rintro ⟨r, hr⟩; simp at hr) (by rintro ⟨-, h2⟩; exact ho h2)
    · push_neg at hl ho
      exact iff_of_true ⟨_, rfl⟩ ⟨hl, ho⟩

/-- C5 witness: an out-of-range control fails identically for two different
replies, and for the in-range control 0x10 a well-formed 12-byte reply is
accepted. -/
theorem get_value_checks_witness :
    (get_value 300 [] = Except.error GetValueError.invalidControl ∧
      get_value 300 [] = get_value 300 [1, 2, 3]) ∧
    ((∃ r, get_value 16 [0x6F, 0x6E, 0x88, 0x02, 0x00, 0x10, 0x00, 0x00, 0x64,
        0x00, 0x32, 0x00] = Except.ok r) ↔
      ([0x6F, 0x6E, 0x88, 0x02, 0x00, 0x10, 0x00, 0x00, 0x64, 0x00, 0x32, 0x00] :
        List Nat).length = 12 ∧
      ([0x6F, 0x6E, 0x88, 0x02, 0x00, 0x10, 0x00, 0x00, 0x64, 0x00, 0x32, 0x00] :
        List Nat).getD 3 0 = 0x02) :=
  ⟨(get_value_checks 300 [] [1, 2, 3]).1 (by decide),
   (get_value_checks 16 [0x6F, 0x6E, 0x88, 0x02, 0x00, 0x10, 0x00, 0x00, 0x64,
      0x00, 0x32, 0x00] []).2 (by decide)⟩

/-- Dictionary access on the `vcp` capability map: `vcpcode in
parsed_caps["vcp"].keys()` / `parsed_caps["vcp"][vcpcode]`.  An entry maps a
control code to `None` or to the list of its advertised enumerated value
codes. -/
def capsGet : List (Int × Option (List Int)) → Int → Option (Option (List Int))
  | [], _ => none
  | (k2, v) :: rest, k => if k2 = k then some v else capsGet rest k

/-- The guard `allowed_values is not None and valuecode not in
allowed_values.keys()` of `DDCSession.getset`. -/
def allowedBlocks (allowed : Option (List Int)) (v : Int) : Bool :=
  match allowed with
  | some ks => decide (v ∉ ks)
  | none => false

/-- `DDCInterface.set_value(control, value)` up to its transport write: the
control-range check (`ValueError`), `value.to_bytes(2, "big")` (an
`OverflowError` outside 0..65535), and the message
`6E 51 84 03 control hi lo` handed to the framing write. -/
def set_value_message (control value : Int) : Except String (List Nat) :=
  if control > 255 ∨ control < 0 then Except.error "Invalid VCP control code"
  else if value < 0 ∨ value > 65535 then Except.error "int does not fit in two bytes"
  else Except.ok [0x6E, 0x51, 0x84, 0x03, control.toNat, value.toNat / 256, value.toNat % 256]

/-- One observable transport interaction of a `getset` call. -/
inductive GetsetStep where
  | getV : Int → GetsetStep
  | setV : List Nat → GetsetStep
  | raised : GetsetStep
deriving DecidableEq

/-- The transport interactions of `DDCSession.getset` after token resolution:
`vcpcode` the resolved control, `valuecode` the resolved target (`none` for a
`?` query), `caps` the device's parsed `vcp` capability map, and `reply` the
result the `get_value` exchange reports.  An unsupported control is skipped
with no I/O; otherwise a get exchange is always issued, and the set write
follows only when the reply is well-formed (zero error flag, echoed control),
a target value is present, the enumerated-value guard does not block it, and
it lies inside `0..maximum`. -/
def getset_trace (vcpcode : Int) (valuecode : Option Int)
    (caps : List (Int × Option (List Int))) (reply : VcpReply) : List GetsetStep :=
  match capsGet caps vcpcode with
  | none => []
  | some allowed =>
    GetsetStep.getV vcpcode ::
      (if reply.errno ≠ 0 then []
       else if (reply.opcode : Int) ≠ vcpcode then []
       else
         match valuecode with
         | none => []
         | some v =>
           if allowedBlocks allowed v then []
           else if v > (reply.maximum : Int) ∨ v < 0 then []
           else
             match set_value_message vcpcode v with
             | Except.ok m => [GetsetStep.setV m]
             | Except.error _ => [GetsetStep.raised])

/-- C6 counterexample.  Control 0x10 is device-supported with no enumerated
list, the get reply carries maximum 100, and the target 50 lies in 0..100, yet
no set write is issued because the reply's error flag is non-zero - the
claim's "write issued iff value in range and in the enum" fails as stated. -/
theorem getset_skips_in_range_value_on_errno :
    getset_trace 16 (some 50) [(16, none)] ⟨1, 16, 0, 100, 10⟩ = [GetsetStep.getV 16] ∧
    (0 : Int) ≤ 50 ∧ (50 : Int) ≤ 100 ∧ allowedBlocks none 50 = false := by decide

/-- C6 (amended).  For a getset request on a device-supported control whose
get reply is well-formed (zero error flag, echoed control code): the get
exchange is always issued first, a pure query issues nothing else, and - for a
numeric target - the set write (message `6E 51 84 03 control hi lo`, value
big-endian) is issued if and only if the target lies in `0..maximum` of the
live reply and, when the capability tree lists enumerated values for the
control, the target is one of them. -/
theorem getset_set_policy (vcpcode v : Int) (caps : List (Int × Option (List Int)))
    (allowed : Option (List Int)) (reply : VcpReply)
    (hcaps : capsGet caps vcpcode = some allowed)
    (herr : reply.errno = 0) (hecho : (reply.opcode : Int) = vcpcode)
    (hctl : 0 ≤ vcpcode ∧ vcpcode ≤ 255) (hmax : reply.maximum ≤ 65535) :
    getset_trace vcpcode none caps reply = [GetsetStep.getV vcpcode] ∧
    getset_trace vcpcode (some v) caps reply =
      GetsetStep.getV vcpcode ::
        (if 0 ≤ v ∧ v ≤ (reply.maximum : Int) ∧ (∀ ks ∈ allowed, v ∈ ks) then
          [GetsetStep.setV [0x6E, 0x51, 0x84, 0x03, vcpcode.toNat,
            v.toNat / 256, v.toNat % 256]]
        else []) := by
  have herr2 : ¬(reply.errno ≠ 0) := by simp [herr]
  have hecho2 : ¬((reply.opcode : Int) ≠ vcpcode) := by simp [hecho]
  constructor
  · simp [getset_trace, hcaps, herr2, hecho2]
  · simp only [getset_trace, hcaps, if_neg herr2, if_neg hecho2]
    by_cases hb : allowedBlocks allowed v
    · rw [if_pos hb]
      have : ¬(0 ≤ v ∧ v ≤ (reply.maximum : Int) ∧ ∀ ks ∈ allowed, v ∈ ks) := by
        rintro ⟨-, -, hmem⟩
        cases allowed with
        | none => simp [allowedBlocks] at hb
        | some ks =>
          simp only [allowedBlocks, decide_eq_true_eq] at hb
          exact hb (hmem ks rfl)
      rw [if_neg this]
    · rw [if_neg hb]
      by_cases hrange : v > (reply.maximum : Int) ∨ v < 0
      · rw [if_pos hrange]
        have : ¬(0 ≤ v ∧ v ≤ (reply.maximum : Int) ∧ ∀ ks ∈ allowed, v ∈ ks) := by
          rintro ⟨h0, hm, -⟩
          rcases hrange with h | h
          · exact absurd hm (not_le.mpr h)
          · exact absurd h0 (not_le.mpr h)
        rw [if_neg this]
      · rw [if_neg hrange]
        push_neg at hrange
        have hcond : 0 ≤ v ∧ v ≤ (reply.maximum : Int) ∧ ∀ ks ∈ allowed, v ∈ ks := by
          refine ⟨hrange.2, hrange.1, ?_⟩
          intro ks hks
          cases allowed with
          | none => cases hks
          | some ks2 =>
            cases hks
            by_contra hmem
            simp [allowedBlocks, hmem] at hb
        rw [if_pos hcond]
        have hmsg : set_value_message vcpcode v = Except.ok
            [0x6E, 0x51, 0x84, 0x03, vcpcode.toNat, v.toNat / 256, v.toNat % 256] := by
          have h1 : ¬(vcpcode > 255 ∨ vcpcode < 0) := by omega
          have h2 : ¬(v < 0 ∨ v > 65535) := by
            have := hrange.1
            omega
          simp [set_value_message, h1, h2]
        rw [hmsg]

/-- C6 witness: control 0x10, maximum 100, no enumerated list, target 50 -
the set write is issued with value bytes 0x00 0x32. -/
theorem getset_set_policy_witness :
    getset_trace 16 (some 50) [(16, none)] ⟨0, 16, 0, 100, 10⟩ =
      [GetsetStep.getV 16, GetsetStep.setV [0x6E, 0x51, 0x84, 0x03, 16, 0x00, 0x32]] := by
  have h := (getset_set_policy 16 50 [(16, none)] none ⟨0, 16, 0, 100, 10⟩ rfl rfl rfl
    (by decide) (by decide)).2
  exact h.trans (by decide)

/-! ## VCP registry: `VCPCode._codes`, `VCPCode._lookup`,
`DDCSession._get_vcp_code`, `DDCSession._get_value_code` -/

/-- Value of a single hexadecimal digit character. -/
def hexDigit (c : Char) : Option Nat :=
  if '0' ≤ c ∧ c ≤ '9' then some (c.toNat - '0'.toNat)
  else if 'a' ≤ c ∧ c ≤ 'f' then some (c.toNat - 'a'.toNat + 10)
  else if 'A' ≤ c ∧ c ≤ 'F' then some (c.toNat - 'A'.toNat + 10)
  else none

/-- Digit-string value in a given base; `none` on an empty digit string or on
a character that is not a digit of the base (Python `ValueError`). -/
def digitsVal (base : Nat) : List Char → Option Nat → Option Nat
  | [], acc => acc
  | c :: cs, acc =>
    match hexDigit c with
    | some d => if d < base then digitsVal base cs (some (acc.getD 0 * base + d)) else none
    | none => none

/-- Whitespace stripping as `int()` performs on its string argument. -/
def stripWs (cs : List Char) : List Char :=
  ((cs.dropWhile Char.isWhitespace).reverse.dropWhile Char.isWhitespace).reverse

/-- Optional leading sign; returns (negative, remaining characters). -/
def signSplit : List Char → Bool × List Char
  | '+' :: cs => (false, cs)
  | '-' :: cs => (true, cs)
  | cs => (false, cs)

/-- Python `int(s, 0)`: literal-style parse - optional sign, `0x`/`0o`/`0b`
prefixes select the base, otherwise decimal where a leading zero is only legal
if the whole digit string is zeros.  `none` models `ValueError`. -/
def pyIntBase0 (s : String) : Option Int :=
  let stripped := stripWs s.data
  let neg := (signSplit stripped).1
  let body := (signSplit stripped).2
  let toInt : Nat → Int := fun v => if neg then -(v : Int) else (v : Int)
  match body with
  | '0' :: c :: rest =>
    if c = 'x' ∨ c = 'X' then (digitsVal 16 rest none).map toInt
    else if c = 'o' ∨ c = 'O' then (digitsVal 8 rest none).map toInt
    else if c = 'b' ∨ c = 'B' then (digitsVal 2 rest none).map toInt
    else if (c :: rest).all (fun d => d = '0') then some 0
    else none
  | body2 => (digitsVal 10 body2 none).map toInt

/-- Python `int(s, 16)`: optional sign, optional `0x`/`0X` prefix, hex digits
(leading zeros legal).  `none` models `ValueError`. -/
def pyIntBase16 (s : String) : Option Int :=
  let stripped := stripWs s.data
  let neg := (signSplit stripped).1
  let body := (signSplit stripped).2
  let body2 := match body with
    | '0' :: 'x' :: rest => rest
    | '0' :: 'X' :: rest => rest
    | rest => rest
  (digitsVal 16 body2 none).map (fun v => if neg then -(v : Int) else (v : Int))

/-- A Python value that is either an int or a str, as the dynamically typed
`vcp`/`value` arguments of `VCPCode._lookup`. -/
inductive PyTok where
  | int : Int → PyTok
  | str : String → PyTok
deriving DecidableEq

/-- The `try: vcp = int(vcp, 0) except (TypeError, ValueError): pass` step:
a numeric string becomes an int, anything else is left unchanged.  (The
following `value = int(vcp, 0)` line of the source is a no-op: at that point
`vcp` is either already an int - `int(int, 0)` raises `TypeError` - or a
non-numeric string - `ValueError` - and both are swallowed, so `value` is
never changed; the no-op is therefore not modelled.) -/
def pyCoerce (t : PyTok) : PyTok :=
  match t with
  | PyTok.str s =>
    match pyIntBase0 s with
    | some i => PyTok.int i
    | none => PyTok.str s
  | PyTok.int i => PyTok.int i

/-- The `x in [item[0], item[1]]` membership test: an int matches the code,
a str matches the name. -/
def tokMatches (t : PyTok) (code : Int) (name : String) : Bool :=
  match t with
  | PyTok.int i => decide (i = code)
  | PyTok.str s => decide (s = name)

/-- An entry of the static `VCPCode._codes` table:
(opcode, name, readable, writable, known_values). -/
structure VcpEntry where
  code : Int
  name : String
  readable : Bool
  writable : Bool
  values : Option (List (Int × String))

def vcpCodes : List VcpEntry := [
  VcpEntry.mk 1 "degauss" false true (none : Option (List (Int × String))),
  VcpEntry.mk 2 "new-control-value" true true (some [((255 : Int), "no-user-controls-are-present"), ((0 : Int), "no-button-active")]),
  VcpEntry.mk 3 "soft-controls" true true (some [((1 : Int), "button-1-active"), ((2 : Int), "button-2-active"), ((3 : Int), "button-3-active"), ((4 : Int), "button-4-active"), ((5 : Int), "button-5-active"), ((6 : Int), "button-6-active"), ((7 : Int), "button-7-active")]),
  VcpEntry.mk 4 "restore-factory-defaults" false true (none : Option (List (Int × String))),
  VcpEntry.mk 5 "restore-factory-brightness-contrast-defaults" false true (none : Option (List (Int × String))),
  VcpEntry.mk 6 "restore-factory-geometry-defaults" false true (none : Option (List (Int × String))),
  VcpEntry.mk 8 "restore-color-defaults" false true (none : Option (List (Int × String))),
  VcpEntry.mk 10 "restore-factory-tv-defaults" false true (none : Option (List (Int × String))),
  VcpEntry.mk 11 "color-temperature-increment" true false (none : Option (List (Int × String))),
  VcpEntry.mk 12 "color-temperature-request" true true (none : Option (List (Int × String))),
  VcpEntry.mk 14 "clock" true true (none : Option (List (Int × String))),
  VcpEntry.mk 16 "brightness" true true (none : Option (List (Int × String))),
  VcpEntry.mk 17 "flesh-tone-enhancement" true true (none : Option (List (Int × String))),
  VcpEntry.mk 18 "contrast" true true (none : Option (List (Int × String))),
  VcpEntry.mk 19 "backlight-control" true true (none : Option (List (Int × String))),
  VcpEntry.mk 20 "select-color-preset" true true (some [((1 : Int), "srgb"), ((2 : Int), "display-native"), ((3 : Int), "4000-k"), ((4 : Int), "5000-k"), ((5 : Int), "6500-k"), ((6 : Int), "7500-k"), ((7 : Int), "8200-k"), ((8 : Int), "9300-k"), ((9 : Int), "10000-k"), ((10 : Int), "11500-k"), ((11 : Int), "user-1"), ((12 : Int), "user-2"), ((13 : Int), "user-3")]),
  VcpEntry.mk 22 "video-gain-red" true true (none : Option (List (Int × String))),
  VcpEntry.mk 23 "user-color-vision-compensation" true true (none : Option (List (Int × String))),
  VcpEntry.mk 24 "video-gain-green" true true (none : Option (List (Int × String))),
  VcpEntry.mk 26 "video-gain-blue" true true (none : Option (List (Int × String))),
  VcpEntry.mk 28 "focus" true true (none : Option (List (Int × String))),
  VcpEntry.mk 30 "auto-setup" true true (some [((0 : Int), "auto-setup-not-active"), ((1 : Int), "performing-auto-setup"), ((2 : Int), "enable-continuous-periodic-auto-setup")]),
  VcpEntry.mk 31 "auto-color-setup" true true (some [((0 : Int), "auto-setup-not-active"), ((1 : Int), "performing-auto-setup"), ((2 : Int), "enable-continuous-periodic-auto-setup")]),
  VcpEntry.mk 32 "horizontal-position-phase" true true (none : Option (List (Int × String))),
  VcpEntry.mk 34 "horizontal-size" true true (none : Option (List (Int × String))),
  VcpEntry.mk 36 "horizontal-pincushion" true true (none : Option (List (Int × String))),
  VcpEntry.mk 38 "horizontal-pincushion-balance" true true (none : Option (List (Int × String))),
  VcpEntry.mk 40 "horizontal-convergence-r-b" true true (none : Option (List (Int × String))),
  VcpEntry.mk 41 "horizontal-convergence-m-g" true true (none : Option (List (Int × String))),
  VcpEntry.mk 42 "horizontal-linearity" true true (none : Option (List (Int × String))),
  VcpEntry.mk 44 "horizontal-linearity-balance" true true (none : Option (List (Int × String))),
  VcpEntry.mk 46 "gray-scale-expansion" true true (none : Option (List (Int × String))),
  VcpEntry.mk 48 "vertical-position-phase" true true (none : Option (List (Int × String))),
  VcpEntry.mk 50 "vertical-size" true true (none : Option (List (Int × String))),
  VcpEntry.mk 52 "vertical-pincushion" true true (none : Option (List (Int × String))),
  VcpEntry.mk 54 "vertical-pincushion-balance" true true (none : Option (List (Int × String))),
  VcpEntry.mk 56 "vertical-convergence-r-b" true true (none : Option (List (Int × String))),
  VcpEntry.mk 57 "vertical-convergence-m-g" true true (none : Option (List (Int × String))),
  VcpEntry.mk 58 "vertical-linearity" true true (none : Option (List (Int × String))),
  VcpEntry.mk 60 "vertical-linearity-balance" true true (none : Option (List (Int × String))),
  VcpEntry.mk 62 "clock-phase" true true (none : Option (List (Int × String))),
  VcpEntry.mk 64 "horizontal-parallelogram" true true (none : Option (List (Int × String))),
  VcpEntry.mk 65 "vertical-parallelogram" true true (none : Option (List (Int × String))),
  VcpEntry.mk 66 "horizontal-keystone" true true (none : Option (List (Int × String))),
  VcpEntry.mk 67 "vertical-keystone" true true (none : Option (List (Int × String))),
  VcpEntry.mk 68 "rotation" true true (none : Option (List (Int × String))),
  VcpEntry.mk 70 "top-corner-flare" true true (none : Option (List (Int × String))),
  VcpEntry.mk 72 "top-corner-hook" true true (none : Option (List (Int × String))),
  VcpEntry.mk 74 "bottom-corner-flare" true true (none : Option (List (Int × String))),
  VcpEntry.mk 76 "bottom-corner-hook" true true (none : Option (List (Int × String))),
  VcpEntry.mk 82 "active-control" true false (none : Option (List (Int × String))),
  VcpEntry.mk 84 "performance-preservation" true true (none : Option (List (Int × String))),
  VcpEntry.mk 86 "horizontal-moire" true true (none : Option (List (Int × String))),
  VcpEntry.mk 88 "vertical-moire" true true (none : Option (List (Int × String))),
  VcpEntry.mk 89 "6-axis-saturation-red" true true (none : Option (List (Int × String))),
  VcpEntry.mk 90 "6-axis-saturation-yellow" true true (none : Option (List (Int × String))),
  VcpEntry.mk 91 "6-axis-saturation-green" true true (none : Option (List (Int × String))),
  VcpEntry.mk 92 "6-axis-saturation-cyan" true true (none : Option (List (Int × String))),
  VcpEntry.mk 93 "6-axis-saturation-blue" true true (none : Option (List (Int × String))),
  VcpEntry.mk 94 "6-axis-saturation-magenta" true true (none : Option (List (Int × String))),
  VcpEntry.mk 96 "input-source" true true (some [((1 : Int), "vga-1"), ((2 : Int), "vga-2"), ((3 : Int), "dvi-1"), ((4 : Int), "dvi-2"), ((5 : Int), "composite-video-1"), ((6 : Int), "composite-video-2"), ((7 : Int), "s-video-1"), ((8 : Int), "s-video-2"), ((9 : Int), "tuner-1"), ((10 : Int), "tuner-2"), ((11 : Int), "tuner-3"), ((12 : Int), "component-video-yprpb-ycrcb-1"), ((13 : Int), "component-video-yprpb-ycrcb-2"), ((14 : Int), "component-video-yprpb-ycrcb-3"), ((15 : Int), "displayport-1"), ((16 : Int), "displayport-2"), ((17 : Int), "hdmi-1"), ((18 : Int), "hdmi-2")]),
  VcpEntry.mk 98 "audio-speaker-volume" true true (none : Option (List (Int × String))),
  VcpEntry.mk 99 "speaker-select" true true (some [((0 : Int), "front-l-r"), ((1 : Int), "side-l-r"), ((2 : Int), "rear-l-r"), ((3 : Int), "center-subwoofer")]),
  VcpEntry.mk 100 "audio-microphone-volume" true true (none : Option (List (Int × String))),
  VcpEntry.mk 102 "ambient-light-sensor" true true (some [((1 : Int), "disabled"), ((2 : Int), "enabled")]),
  VcpEntry.mk 107 "backlight-level-white" true true (none : Option (List (Int × String))),
  VcpEntry.mk 108 "video-black-level-red" true true (none : Option (List (Int × String))),
  VcpEntry.mk 109 "backlight-level-red" true true (none : Option (List (Int × String))),
  VcpEntry.mk 110 "video-black-level-green" true true (none : Option (List (Int × String))),
  VcpEntry.mk 111 "backlight-level-green" true true (none : Option (List (Int × String))),
  VcpEntry.mk 112 "video-black-level-blue" true true (none : Option (List (Int × String))),
  VcpEntry.mk 113 "backlight-level-blue" true true (none : Option (List (Int × String))),
  VcpEntry.mk 114 "gamma" true true (none : Option (List (Int × String))),
  VcpEntry.mk 115 "lut-size" true false (none : Option (List (Int × String))),
  VcpEntry.mk 116 "single-point-lut-operation" true true (none : Option (List (Int × String))),
  VcpEntry.mk 117 "block-lut-operation" true true (none : Option (List (Int × String))),
  VcpEntry.mk 118 "remote-procedure-call" false true (none : Option (List (Int × String))),
  VcpEntry.mk 120 "display-identification-operation" true false (none : Option (List (Int × String))),
  VcpEntry.mk 122 "adjust-focal-plane" true true (none : Option (List (Int × String))),
  VcpEntry.mk 124 "adjust-zoom" true true (none : Option (List (Int × String))),
  VcpEntry.mk 126 "trapezoid" true true (none : Option (List (Int × String))),
  VcpEntry.mk 128 "keystone" true true (none : Option (List (Int × String))),
  VcpEntry.mk 130 "horizontal-mirror-flip" true true (some [((0 : Int), "normal-mode"), ((1 : Int), "mirrored-horizontally-mode")]),
  VcpEntry.mk 132 "vertical-mirror-flip" true true (some [((0 : Int), "normal-mode"), ((1 : Int), "mirrored-vertically-mode")]),
  VcpEntry.mk 134 "display-scaling" true true (some [((1 : Int), "no-scaling"), ((2 : Int), "max-image-no-aspect-ration-distortion"), ((3 : Int), "max-vertical-image-no-aspect-ratio-distortion"), ((4 : Int), "max-horizontal-image-no-aspect-ratio-distortion"), ((5 : Int), "max-vertical-image-with-aspect-ratio-distortion"), ((6 : Int), "max-horizontal-image-with-aspect-ratio-distortion"), ((7 : Int), "linear-expansion-compression-on-horizontal-axis"), ((8 : Int), "linear-expansion-compression-on-h-and-v-axes"), ((9 : Int), "squeeze-mode"), ((10 : Int), "non-linear-expansion")]),
  VcpEntry.mk 135 "sharpness" true true (some [((1 : Int), "filter-function-1"), ((2 : Int), "filter-function-2"), ((3 : Int), "filter-function-3"), ((4 : Int), "filter-function-4")]),
  VcpEntry.mk 136 "velocity-scan-modulation" true true (none : Option (List (Int × String))),
  VcpEntry.mk 138 "color-saturation" true true (none : Option (List (Int × String))),
  VcpEntry.mk 139 "tv-channel-up-down" false true (some [((1 : Int), "increment-channel"), ((2 : Int), "decrement-channel")]),
  VcpEntry.mk 140 "tv-sharpness" true true (none : Option (List (Int × String))),
  VcpEntry.mk 141 "audio-mute-screen-blank" true true (some [((1 : Int), "mute-the-audio"), ((2 : Int), "unmute-the-audio")]),
  VcpEntry.mk 142 "tv-contrast" true true (none : Option (List (Int × String))),
  VcpEntry.mk 143 "audio-treble" true true (none : Option (List (Int × String))),
  VcpEntry.mk 144 "hue" true true (none : Option (List (Int × String))),
  VcpEntry.mk 145 "audio-bass" true true (none : Option (List (Int × String))),
  VcpEntry.mk 146 "tv-black-level-luminesence" true true (none : Option (List (Int × String))),
  VcpEntry.mk 147 "audio-balance-l-r" true true (none : Option (List (Int × String))),
  VcpEntry.mk 148 "audio-processor-mode" true true (some [((0 : Int), "speaker-off-audio-not-supported"), ((1 : Int), "mono"), ((2 : Int), "stereo"), ((3 : Int), "stereo-expanded"), ((17 : Int), "srs-2.0"), ((18 : Int), "srs-2.1"), ((19 : Int), "srs-3.1"), ((20 : Int), "srs-4.1"), ((21 : Int), "srs-5.1"), ((22 : Int), "srs-6.1"), ((23 : Int), "srs-7.1"), ((33 : Int), "dolby-2.0"), ((34 : Int), "dolby-2.1"), ((35 : Int), "dolby-3.1"), ((36 : Int), "dolby-4.1"), ((37 : Int), "dolby-5.1"), ((38 : Int), "dolby-6.1"), ((39 : Int), "dolby-7.1"), ((49 : Int), "thx-2.0"), ((50 : Int), "thx-2.1"), ((51 : Int), "thx-3.1"), ((52 : Int), "thx-4.1"), ((53 : Int), "thx-5.1"), ((54 : Int), "thx-6.1"), ((55 : Int), "thx-7.1")]),
  VcpEntry.mk 149 "window-position-tl_x" true true (none : Option (List (Int × String))),
  VcpEntry.mk 150 "window-position-tl_y" true true (none : Option (List (Int × String))),
  VcpEntry.mk 151 "window-position-br_x" true true (none : Option (List (Int × String))),
  VcpEntry.mk 152 "window-position-br_y" true true (none : Option (List (Int × String))),
  VcpEntry.mk 153 "window-control-on-off" true true (some [((0 : Int), "no-effect"), ((1 : Int), "off"), ((2 : Int), "on")]),
  VcpEntry.mk 154 "window-background" true true (none : Option (List (Int × String))),
  VcpEntry.mk 155 "6-axis-hue-control-red" true true (none : Option (List (Int × String))),
  VcpEntry.mk 156 "6-axis-hue-control-yellow" true true (none : Option (List (Int × String))),
  VcpEntry.mk 157 "6-axis-hue-control-green" true true (none : Option (List (Int × String))),
  VcpEntry.mk 158 "6-axis-hue-control-cyan" true true (none : Option (List (Int × String))),
  VcpEntry.mk 159 "6-axis-hue-control-blue" true true (none : Option (List (Int × String))),
  VcpEntry.mk 160 "6-axis-hue-control-magenta" true true (none : Option (List (Int × String))),
  VcpEntry.mk 162 "auto-setup-on-off" false true (some [((1 : Int), "off"), ((2 : Int), "on")]),
  VcpEntry.mk 164 "window-mask-control" true true (none : Option (List (Int × String))),
  VcpEntry.mk 165 "change-the-selected-window" true true (some [((0 : Int), "full-display-image-area-selected-except-active-windows"), ((1 : Int), "window-1-selected"), ((2 : Int), "window-2-selected"), ((3 : Int), "window-3-selected"), ((4 : Int), "window-4-selected"), ((5 : Int), "window-5-selected"), ((6 : Int), "window-6-selected"), ((7 : Int), "window-7-selected")]),
  VcpEntry.mk 170 "screen-orientation" true false (some [((1 : Int), "0-degrees"), ((2 : Int), "90-degrees"), ((3 : Int), "180-degrees"), ((4 : Int), "270-degrees"), ((255 : Int), "display-cannot-supply-orientation")]),
  VcpEntry.mk 172 "horizontal-frequency" true false (none : Option (List (Int × String))),
  VcpEntry.mk 174 "vertical-frequency" true false (none : Option (List (Int × String))),
  VcpEntry.mk 176 "settings" false true (some [((1 : Int), "store-current-settings-in-the-monitor"), ((2 : Int), "restore-factory-defaults-for-current-mode")]),
  VcpEntry.mk 178 "flat-panel-sub-pixel-layout" true false (some [((0 : Int), "sub-pixel-layout-not-defined"), ((1 : Int), "red-green-blue-vertical-stripe"), ((2 : Int), "red-green-blue-horizontal-stripe"), ((3 : Int), "blue-green-red-vertical-stripe"), ((4 : Int), "blue-green-red-horizontal-stripe"), ((5 : Int), "quad-pixel-red-at-top-left"), ((6 : Int), "quad-pixel-red-at-bottom-left"), ((7 : Int), "delta-triad"), ((8 : Int), "mosaic")]),
  VcpEntry.mk 180 "source-timing-mode" true true (none : Option (List (Int × String))),
  VcpEntry.mk 182 "display-technology-type" true false (some [((1 : Int), "crt-shadow-mask"), ((2 : Int), "crt-aperture-grill"), ((3 : Int), "lcd-active-matrix"), ((4 : Int), "lcos"), ((5 : Int), "plasma"), ((6 : Int), "oled"), ((7 : Int), "el"), ((8 : Int), "mem")]),
  VcpEntry.mk 183 "monitor-status" true false (none : Option (List (Int × String))),
  VcpEntry.mk 184 "packet-count" true true (none : Option (List (Int × String))),
  VcpEntry.mk 185 "monitor-x-origin" true true (none : Option (List (Int × String))),
  VcpEntry.mk 186 "monitor-y-origin" true true (none : Option (List (Int × String))),
  VcpEntry.mk 187 "header-error-count" true true (none : Option (List (Int × String))),
  VcpEntry.mk 188 "body-crc-error-count" true true (none : Option (List (Int × String))),
  VcpEntry.mk 189 "client-id" true true (none : Option (List (Int × String))),
  VcpEntry.mk 190 "link-control" true true (none : Option (List (Int × String))),
  VcpEntry.mk 192 "display-usage-time" true false (none : Option (List (Int × String))),
  VcpEntry.mk 194 "display-descriptor-length" true false (none : Option (List (Int × String))),
  VcpEntry.mk 195 "transmit-display-descriptor" true true (none : Option (List (Int × String))),
  VcpEntry.mk 196 "enable-display-of-\x27display-descriptor\x27" true true (none : Option (List (Int × String))),
  VcpEntry.mk 198 "application-enable-key" true false (none : Option (List (Int × String))),
  VcpEntry.mk 200 "display-controller-type" true false (some [((1 : Int), "conexant"), ((2 : Int), "genesis"), ((3 : Int), "macronix"), ((4 : Int), "idt"), ((5 : Int), "mstar"), ((6 : Int), "myson"), ((7 : Int), "phillips"), ((8 : Int), "pixelworks"), ((9 : Int), "realtek"), ((10 : Int), "sage"), ((11 : Int), "silicon-image"), ((12 : Int), "smartasic"), ((13 : Int), "stmicroelectronics"), ((14 : Int), "topro"), ((15 : Int), "trumpion"), ((16 : Int), "welltrend"), ((17 : Int), "samsung"), ((18 : Int), "novatek"), ((19 : Int), "stk"), ((20 : Int), "silicon-optics"), ((21 : Int), "texas-instruments"), ((22 : Int), "analogix"), ((23 : Int), "quantum-data"), ((24 : Int), "nxp-semiconductors"), ((25 : Int), "chrontel"), ((26 : Int), "parade-technologies"), ((27 : Int), "thine-electronics"), ((28 : Int), "trident"), ((29 : Int), "micros"), ((255 : Int), "not-defined-a-manufacturer-designed-controller")]),
  VcpEntry.mk 201 "display-firmware-level" true false (none : Option (List (Int × String))),
  VcpEntry.mk 202 "osd-button-control" true true (some [((1 : Int), "osd-disabled"), ((2 : Int), "osd-enabled"), ((255 : Int), "display-cannot-supply-this-information")]),
  VcpEntry.mk 204 "osd-language" true true (some [((0 : Int), "reserved-value-must-be-ignored"), ((1 : Int), "chinese-traditional-hantai"), ((2 : Int), "english"), ((3 : Int), "french"), ((4 : Int), "german"), ((5 : Int), "italian"), ((6 : Int), "japanese"), ((7 : Int), "korean"), ((8 : Int), "portuguese-portugal"), ((9 : Int), "russian"), ((10 : Int), "spanish"), ((11 : Int), "swedish"), ((12 : Int), "turkish"), ((13 : Int), "chinese-simplified-kantai"), ((14 : Int), "portuguese-brazil"), ((15 : Int), "arabic"), ((16 : Int), "bulgarian"), ((17 : Int), "croatian"), ((18 : Int), "czech"), ((19 : Int), "danish"), ((20 : Int), "dutch"), ((21 : Int), "estonian"), ((22 : Int), "finnish"), ((23 : Int), "greek"), ((24 : Int), "hebrew"), ((25 : Int), "hindi"), ((26 : Int), "hungarian"), ((27 : Int), "latvian"), ((28 : Int), "lithuanian"), ((29 : Int), "norwegian"), ((30 : Int), "polish"), ((31 : Int), "romanian"), ((32 : Int), "serbian"), ((33 : Int), "slovak"), ((34 : Int), "slovenian"), ((35 : Int), "thai"), ((36 : Int), "ukranian"), ((37 : Int), "vietnamese")]),
  VcpEntry.mk 205 "status-indicators" true true (none : Option (List (Int × String))),
  VcpEntry.mk 206 "auxiliary-display-size" true false (none : Option (List (Int × String))),
  VcpEntry.mk 207 "auxiliary-display-data" false true (none : Option (List (Int × String))),
  VcpEntry.mk 208 "output-select" true true (some [((1 : Int), "analog-video-r-g-b-1"), ((2 : Int), "analog-video-r-g-b-2"), ((3 : Int), "digital-video-tdms-1"), ((4 : Int), "digital-video-tdms-22"), ((5 : Int), "composite-video-1"), ((6 : Int), "composite-video-2"), ((7 : Int), "s-video-1"), ((8 : Int), "s-video-2"), ((9 : Int), "tuner-1"), ((10 : Int), "tuner-2"), ((11 : Int), "tuner-3"), ((12 : Int), "component-video-yprpb-ycrcb-1"), ((13 : Int), "component-video-yprpb-ycrcb-2"), ((14 : Int), "component-video-yprpb-ycrcb-3"), ((15 : Int), "displayport-1"), ((16 : Int), "displayport-2"), ((17 : Int), "hdmi-1"), ((18 : Int), "hdmi-2")]),
  VcpEntry.mk 210 "asset-tag" true true (none : Option (List (Int × String))),
  VcpEntry.mk 212 "stereo-video-mode" true true (none : Option (List (Int × String))),
  VcpEntry.mk 214 "power-mode" true true (some [((1 : Int), "dpm-on-dpms-off"), ((2 : Int), "dpm-off-dpms-standby"), ((3 : Int), "dpm-off-dpms-suspend"), ((4 : Int), "dpm-off-dpms-off"), ((5 : Int), "write-only-value-to-turn-off-display")]),
  VcpEntry.mk 215 "auxiliary-power-output" true true (some [((1 : Int), "disable-auxiliary-power"), ((2 : Int), "enable-auxiliary-power")]),
  VcpEntry.mk 218 "scan-mode" true true (some [((0 : Int), "normal-operation"), ((1 : Int), "underscan"), ((2 : Int), "overscan"), ((3 : Int), "widescreen")]),
  VcpEntry.mk 219 "image-mode" true true (some [((0 : Int), "no-effect"), ((1 : Int), "full-mode"), ((2 : Int), "zoom-mode"), ((3 : Int), "squeeze-mode"), ((4 : Int), "variable")]),
  VcpEntry.mk 220 "display-mode" true true (some [((0 : Int), "standard-default-mode"), ((1 : Int), "productivity"), ((2 : Int), "mixed"), ((3 : Int), "movie"), ((4 : Int), "user-defined"), ((5 : Int), "games"), ((6 : Int), "sports"), ((7 : Int), "professional-all-signal-processing-disabled"), ((8 : Int), "standard-default-mode-with-intermediate-power-consumption"), ((9 : Int), "standard-default-mode-with-low-power-consumption"), ((10 : Int), "demonstration"), ((240 : Int), "dynamic-contrast")]),
  VcpEntry.mk 222 "scratch-pad" true true (none : Option (List (Int × String))),
  VcpEntry.mk 223 "vcp-version" true false (none : Option (List (Int × String)))
]

/-- The inner `for entry in item[4]` search of `VCPCode._lookup`. -/
def findValueEntry (v : PyTok) : List (Int × String) → Option (Int × String)
  | [] => none
  | e :: rest => if tokMatches v e.1 e.2 then some e else findValueEntry v rest

/-- The `for item in VCPCode._codes` loop of `VCPCode._lookup`: on the first
item matching `vcp`, return the item if no value is requested, else search the
known values of that item (returning `None` if it has none or none match);
later items are never consulted.  Only the (code, name) projection of the
returned tuple is modelled - callers use only `result[0]` and `result[1]`. -/
def vcpScan (vcp : PyTok) (value : Option PyTok) : List VcpEntry → Option (Int × String)
  | [] => none
  | item :: rest =>
    if tokMatches vcp item.code item.name then
      match value with
      | none => some (item.code, item.name)
      | some v =>
        match item.values with
        | some entries => findValueEntry v entries
        | none => none
    else vcpScan vcp value rest

/-- `VCPCode._lookup(vcp, value)`. -/
def vcpLookup (vcp : PyTok) (value : Option PyTok) : Option (Int × String) :=
  vcpScan (pyCoerce vcp) value vcpCodes

/-- `DDCSession._get_vcp_code(vcp)`: numeric parse first, then
`VCPCode(vcp).get_vcp_code()` which is `_lookup(vcp, None)[0]`. -/
def session_get_vcp_code (vcp : String) : Option Int :=
  match pyIntBase0 vcp with
  | some i => some i
  | none => (vcpLookup (PyTok.str vcp) none).map Prod.fst

/-- `DDCSession._get_value_code(value)`: numeric parse first, then
`VCPCode(value).get_value_code()` - note the constructor call passes the value
token in the VCP slot and leaves `_value = None`, so this is
`_lookup(value, None)[0]`: the requested control is never consulted. -/
def session_get_value_code (value : String) : Option Int :=
  match pyIntBase0 value with
  | some i => some i
  | none => (vcpLookup (PyTok.str value) none).map Prod.fst

/-- C7.  Control resolution is bidirectional and polymorphic: "brightness" and
"0x10" both resolve to 0x10.  But the value-token resolution of the session
ignores the control and scans the token against the table of CONTROL
codes/names, so the value name "6500-k" resolves to `None` and the request is
skipped - although the registry itself, given both the control and the value
as `_lookup(0x14, "6500-k")`, does map it to 0x05 as the claim (and the
usage example `select-color-preset=6500-k` in the docstring of the program)
expects. -/
theorem vcp_resolution :
    session_get_vcp_code "brightness" = some 0x10 ∧
    session_get_vcp_code "0x10" = some 0x10 ∧
    session_get_value_code "6500-k" = none ∧
    vcpLookup (PyTok.str "0x14") (some (PyTok.str "6500-k")) = some (0x05, "6500-k") := by
  refine ⟨by decide, by decide, by decide, by decide⟩

/-! ## Capability parser: `DDCParser._parse_tree`, `_unparse_tree`,
`_convert_blobtree`, `parse_capabilities` -/

/-- A node of the parsed capability tree: a text token or a parenthesized
group (`str` / nested `list` in the source). -/
inductive Blob where
  | str : List Char → Blob
  | node : List Blob → Blob

/-- Whether a character is one of the scan targets `"()" + sep` of
`DDCParser._find_next_char`. -/
def isTreeSpecial (sep c : Char) : Bool := c = '(' || c = ')' || c = sep

/-- The text between the current position and the next special character -
what `_parse_tree` slices as `source[pos:token_idx]` (or `source[pos:]` when
no special character remains). -/
def pendingText (sep : Char) (cs : List Char) : List Char :=
  cs.takeWhile (fun c => !isTreeSpecial sep c)

/-- The `if pos != token_idx: result.append(source[pos:token_idx])` step:
the pending text is emitted as one token only when nonempty. -/
def pendingHead (sep : Char) (cs : List Char) : List Blob :=
  if (pendingText sep cs).isEmpty then [] else [Blob.str (pendingText sep cs)]

/-- `DDCParser._parse_tree(source, sep, pos)`, re-expressed on the remaining
suffix of the source instead of an absolute position.  Each iteration of the
`while` loop scans to the next `(`, `)` or separator (`_find_next_char`),
emits the pending text, and either recurses into a group, returns on `)`
(second component `some rest` is the position/tuple return of the source), or
skips the separator; it terminates at end of input with `none` as second
component.  The loop is unrolled into one call per iteration whose results are
concatenated.  An unmatched `(` - where the recursive call runs off the end of
the input - makes the source mis-unpack a list as a (child, pos) pair, which
is undefined behaviour; it is modelled as the overall failure `none`.  The
fuel argument only makes the recursion structural: every recursive call
receives a strictly shorter suffix, so fuel `length + 1` can never run out. -/
def parseTF (sep : Char) : Nat → List Char → Option (List Blob × Option (List Char))
  | 0, _ => none
  | _ + 1, [] => some ([], none)
  | fuel + 1, c0 :: cs =>
    match (c0 :: cs).dropWhile (fun c => !isTreeSpecial sep c) with
    | [] => some ([Blob.str (pendingText sep (c0 :: cs))], none)
    | c :: rest2 =>
      if c = ')' then
        some (pendingHead sep (c0 :: cs), some rest2)
      else if c = '(' then
        match parseTF sep fuel rest2 with
        | some (child, some after) =>
          match parseTF sep fuel after with
          | some (nodes, term) =>
            some (pendingHead sep (c0 :: cs) ++ Blob.node child :: nodes, term)
          | none => none
        | _ => none
      else
        match parseTF sep fuel rest2 with
        | some (nodes, term) => some (pendingHead sep (c0 :: cs) ++ nodes, term)
        | none => none

/-- `DDCParser._parse_tree` at the default starting position with adequate
fuel. -/
def parse_tree (s : String) (sep : Char) : Option (List Blob × Option (List Char)) :=
  parseTF sep (s.data.length + 1) s.data

/-- The `result = result[0 : -len(sep)]` trailing-separator strip of
`_unparse_tree` (Python slicing yields the empty string when the result is
shorter than the separator). -/
def unparseTrim (sep : List Char) (l : List Char) : List Char :=
  if 0 < sep.length then l.take (l.length - sep.length) else l

/-- The `for node in tree` loop of `DDCParser._unparse_tree`: each string
token, or parenthesized recursively unparsed group, is appended followed by
the separator.  (The final strip is `unparseTrim`, applied by callers.)  The
fuel argument only makes the nested recursion structural; any fuel larger
than the total number of nodes suffices. -/
def unparsePartsF (sep : List Char) : Nat → List Blob → List Char
  | 0, _ => []
  | _ + 1, [] => []
  | fuel + 1, Blob.str s :: bs => (s ++ sep) ++ unparsePartsF sep fuel bs
  | fuel + 1, Blob.node xs :: bs =>
    (('(' :: unparseTrim sep (unparsePartsF sep fuel xs) ++ [')']) ++ sep) ++
      unparsePartsF sep fuel bs

/-- `DDCParser._unparse_tree(tree, sep)`. -/
def unparse_tree (fuel : Nat) (tree : List Blob) (sep : List Char) : List Char :=
  unparseTrim sep (unparsePartsF sep fuel tree)

/-- Python iteration over a parsed value: a list yields its elements, a string
yields its characters (as one-character strings).  Used by `_unparse_tree` and
`_convert_blobtree`, whose `for node in tree` accepts either. -/
def blobIter : Blob → List Blob
  | Blob.node xs => xs
  | Blob.str s => s.map (fun ch => Blob.str [ch])

/-- The nested code-to-subtree dictionary built by `_convert_blobtree`. -/
inductive HexTree where
  | mk : List (Int × Option HexTree) → HexTree

/-- Python dict assignment `result[key] = value`: replace in place if the key
is present, else append. -/
def dictSet : List (Int × Option HexTree) → Int → Option HexTree →
    List (Int × Option HexTree)
  | [], k, v => [(k, v)]
  | (k2, v2) :: rest, k, v =>
    if k2 = k then (k2, v) :: rest else (k2, v2) :: dictSet rest k v

/-- `DDCParser._convert_blobtree(tree)` with `previous_key` and the
accumulated dictionary as explicit state: a string token is parsed as a
hexadecimal key mapped to `None`; a nested list is converted recursively and
attached to the previous key, failing ("Discovered child without context")
when there is none; a non-hexadecimal token is a `ValueError`.  Fuel only
makes the nested recursion structural. -/
def convertBlobtreeF : Nat → List Blob → Option Int → List (Int × Option HexTree) →
    Option (List (Int × Option HexTree))
  | 0, _, _, _ => none
  | _ + 1, [], _, acc => some acc
  | fuel + 1, Blob.node xs :: rest, prev, acc =>
    match prev with
    | none => none
    | some k =>
      match convertBlobtreeF fuel xs none [] with
      | none => none
      | some sub => convertBlobtreeF fuel rest none (dictSet acc k (some (HexTree.mk sub)))
  | fuel + 1, Blob.str s :: rest, _, acc =>
    match pyIntBase16 (String.mk s) with
    | none => none
    | some k => convertBlobtreeF fuel rest (some k) (dictSet acc k none)

/-- A value of the parsed capability dictionary: a flattened string, or - for
the `cmds`/`vcp` keys - a code dictionary. -/
inductive CapValue where
  | str : String → CapValue
  | blob : List (Int × Option HexTree) → CapValue

/-- Python dict assignment for the string-keyed capability dictionary. -/
def strSet : List (String × CapValue) → String → CapValue →
    List (String × CapValue)
  | [], k, v => [(k, v)]
  | (k2, v2) :: rest, k, v =>
    if k2 = k then (k2, v) :: rest else (k2, v2) :: strSet rest k v

/-- The key/value pairing loop of `DDCParser.parse_capabilities`: alternating
key and value are taken from the node iterator; a key that is a nested list
has no `.strip()` (Python `AttributeError`), a trailing key without a value
hits `StopIteration`; the `cmds`/`vcp` values go through `_convert_blobtree`,
all others are re-flattened with `_unparse_tree(value, " ")`; results are
assigned under the UNstripped key. -/
def capPairsF (fuel : Nat) : List Blob → List (String × CapValue) →
    Option (List (String × CapValue))
  | [], acc => some acc
  | Blob.node _ :: _, _ => none
  | [Blob.str _], _ => none
  | Blob.str k :: v :: rest, acc =>
    match (if String.mk (stripWs k) = "cmds" ∨ String.mk (stripWs k) = "vcp" then
        (convertBlobtreeF fuel (blobIter v) none []).map CapValue.blob
      else
        some (CapValue.str (String.mk (unparse_tree fuel (blobIter v) [' '])))) with
    | none => none
    | some cv => capPairsF fuel rest (strSet acc (String.mk k) cv)

/-- `DDCParser.parse_capabilities(raw_caps)`: parse with separator `" "`,
require exactly one top-level node (a `)`-terminated parse returns a 2-tuple
in the source, which also fails the `len(tree) != 1` check), then run the
pairing loop over the iteration of that node. -/
def parse_capabilities (raw : String) : Option (List (String × CapValue)) :=
  match parseTF ' ' (raw.data.length + 1) raw.data with
  | some ([top], none) => capPairsF (raw.data.length + 1) (blobIter top) []
  | _ => none

/-- The capability string of the Wacom Cintiq 13HD, from the docstring of
`parse_capabilities`. -/
def capString : String :=
  "(prot(monitor)type(LCD)model(Wacom Cintiq 13HD)cmds(01 02 03 07 0C E3 F3)vcp(02 04 08 10 12 14(04 05 08 0B) 16 18 1A 52 6C 6E 70 86(03 08) AC AE B6 C8 DF)mswhql(1)asset_eep(40)mccs_ver(2.1))"

/-- C4.  Parsing the Cintiq 13HD capability string yields exactly the claimed
dictionary: string values for `prot`, `type`, `model`, `mswhql`, `asset_eep`
and `mccs_ver`, the seven `cmds` codes all mapped to null, and the `vcp`
dictionary with code 0x14 (20) mapped to the sub-codes 4, 5, 8, 11, code 0x86
(134) mapped to 3, 8, and every other listed code mapped to null. -/
theorem parse_capabilities_cintiq :
    parse_capabilities capString = some [
      ("prot", CapValue.str "monitor"),
      ("type", CapValue.str "LCD"),
      ("model", CapValue.str "Wacom Cintiq 13HD"),
      ("cmds", CapValue.blob [(1, none), (2, none), (3, none), (7, none), (12, none),
        (227, none), (243, none)]),
      ("vcp", CapValue.blob [(2, none), (4, none), (8, none), (16, none), (18, none),
        (20, some (HexTree.mk [(4, none), (5, none), (8, none), (11, none)])),
        (22, none), (24, none), (26, none), (82, none), (108, none), (110, none),
        (112, none), (134, some (HexTree.mk [(3, none), (8, none)])),
        (172, none), (174, none), (182, none), (200, none), (223, none)]),
      ("mswhql", CapValue.str "1"),
      ("asset_eep", CapValue.str "40"),
      ("mccs_ver", CapValue.str "2.1")] := rfl

/-- Parse-then-unparse of a leaf string: `_parse_tree(s, sep)` followed by
`_unparse_tree(result, sep)` with the same separator; `none` when the parse
fails or closes early (an unbalanced `)`), which cannot happen for paren-free
input. -/
def leafRoundTrip (s : String) (sep : Char) : Option String :=
  match parse_tree s sep with
  | some (t, none) => some (String.mk (unparse_tree (s.data.length + 1) t [sep]))
  | _ => none

/-- C8 counterexample.  The tokenizer drops empty tokens, so the leaf string
"a  b" (two spaces) re-joins as "a b": internal spacing is NOT preserved for
repeated separators, refuting the round-trip claim as stated. -/
theorem leaf_round_trip_collapses_spaces :
    leafRoundTrip "a  b" ' ' = some "a b" ∧ ("a b" : String) ≠ "a  b" :=
  ⟨rfl, by decide⟩

/-- Space-joined token list (`sep.join(ts)`), the canonical form of a leaf
string. -/
def sepJoin (sep : Char) : List (List Char) → List Char
  | [] => []
  | [t] => t
  | t :: ts => t ++ sep :: sepJoin sep ts

theorem takeWhile_append_all (p : Char → Bool) (t rest : List Char)
    (h : ∀ c ∈ t, p c = true) :
    (t ++ rest).takeWhile p = t ++ rest.takeWhile p := by
  induction t with
  | nil => simp
  | cons a t ih =>
    simp only [List.cons_append, List.takeWhile_cons, h a (List.mem_cons_self a t)]
    simp [ih (fun c hc => h c (List.mem_cons_of_mem a hc))]

theorem dropWhile_append_all (p : Char → Bool) (t rest : List Char)
    (h : ∀ c ∈ t, p c = true) :
    (t ++ rest).dropWhile p = rest.dropWhile p := by
  induction t with
  | nil => simp
  | cons a t ih =>
    simp only [List.cons_append, List.dropWhile_cons, h a (List.mem_cons_self a t)]
    exact ih (fun c hc => h c (List.mem_cons_of_mem a hc))

theorem sepJoin_length (sep : Char) (ts : List (List Char))
    (h : ∀ t ∈ ts, t ≠ []) : ts.length ≤ (sepJoin sep ts).length := by
  induction ts with
  | nil => simp [sepJoin]
  | cons t ts ih =>
    have h1 : 1 ≤ t.length :=
      List.length_pos.mpr (h t (List.mem_cons_self t ts))
    cases ts with
    | nil => simpa [sepJoin] using h1
    | cons t2 ts2 =>
      have h2 := ih (fun x hx => h x (List.mem_cons_of_mem t hx))
      simp only [sepJoin, List.length_append, List.length_cons] at h2 ⊢
      omega

theorem parseTF_sepJoin (sep : Char) (hs1 : sep ≠ '(') (hs2 : sep ≠ ')')
    (ts : List (List Char)) (fuel : Nat) (hfuel : ts.length < fuel)
    (hts : ∀ t ∈ ts, t ≠ [] ∧ ∀ c ∈ t, isTreeSpecial sep c = false) :
    parseTF sep fuel (sepJoin sep ts) = some (ts.map Blob.str, none) := by
  induction ts generalizing fuel with
  | nil =>
    obtain ⟨f, rfl⟩ : ∃ f, fuel = f + 1 := ⟨fuel - 1, by omega⟩
    rfl
  | cons t ts ih =>
    obtain ⟨f, rfl⟩ : ∃ f, fuel = f + 1 := ⟨fuel - 1, by omega⟩
    obtain ⟨hne, hgood⟩ := hts t (List.mem_cons_self t ts)
    have hgood2 : ∀ c ∈ t, (fun c => !isTreeSpecial sep c) c = true := by
      intro c hc
      simp [hgood c hc]
    obtain ⟨a, t', rfl⟩ : ∃ a t', t = a :: t' := by
      cases t with
      | nil => exact absurd rfl hne
      | cons a t' => exact ⟨a, t', rfl⟩
    cases ts with
    | nil =>
      show parseTF sep (f + 1) (a :: t') = some ([Blob.str (a :: t')], none)
      have htake : (a :: t').takeWhile (fun c => !isTreeSpecial sep c) = a :: t' := by
        have := takeWhile_append_all (fun c => !isTreeSpecial sep c) (a :: t') [] hgood2
        simpa using this
      have hdrop : (a :: t').dropWhile (fun c => !isTreeSpecial sep c) = [] := by
        have := dropWhile_append_all (fun c => !isTreeSpecial sep c) (a :: t') [] hgood2
        simpa using this
      simp only [parseTF, hdrop, pendingText, htake]
    | cons t2 ts2 =>
      have hjoin : sepJoin sep ((a :: t') :: t2 :: ts2) =
          a :: (t' ++ sep :: sepJoin sep (t2 :: ts2)) := by
        simp [sepJoin]
      rw [hjoin]
      have hsepgood : (!isTreeSpecial sep sep) = false := by
        simp [isTreeSpecial]
      have happ : a :: (t' ++ sep :: sepJoin sep (t2 :: ts2)) =
          (a :: t') ++ (sep :: sepJoin sep (t2 :: ts2)) := by simp
      have hdrop : (a :: (t' ++ sep :: sepJoin sep (t2 :: ts2))).dropWhile
          (fun c => !isTreeSpecial sep c) = sep :: sepJoin sep (t2 :: ts2) := by
        rw [happ, dropWhile_append_all _ _ _ hgood2, List.dropWhile_cons]
        simp [hsepgood]
      have htake : pendingText sep (a :: (t' ++ sep :: sepJoin sep (t2 :: ts2))) =
          a :: t' := by
        unfold pendingText
        rw [happ, takeWhile_append_all _ _ _ hgood2, List.takeWhile_cons]
        simp [hsepgood]
      have hhead : pendingHead sep (a :: (t' ++ sep :: sepJoin sep (t2 :: ts2))) =
          [Blob.str (a :: t')] := by
        simp [pendingHead, htake]
      have hihyp := ih f (by simp only [List.length_cons] at hfuel ⊢; omega)
        (fun x hx => hts x (List.mem_cons_of_mem _ hx))
      simp only [parseTF, hdrop, if_neg hs2, if_neg hs1, hihyp, hhead]
      simp

theorem unparsePartsF_nil (sep : List Char) (fuel : Nat) :
    unparsePartsF sep fuel [] = [] := by
  cases fuel <;> rfl

theorem unparseParts_strs (sep : Char) (ts : List (List Char)) (fuel : Nat)
    (hfuel : ts.length < fuel) :
    unparsePartsF [sep] fuel (ts.map Blob.str) =
      sepJoin sep ts ++ (if ts.isEmpty then [] else [sep]) := by
  induction ts generalizing fuel with
  | nil =>
    simp [unparsePartsF_nil, sepJoin]
  | cons t ts ih =>
    obtain ⟨f, rfl⟩ : ∃ f, fuel = f + 1 := ⟨fuel - 1, by omega⟩
    cases ts with
    | nil =>
      show (t ++ [sep]) ++ unparsePartsF [sep] f [] = sepJoin sep [t] ++ [sep]
      simp [unparsePartsF_nil, sepJoin]
    | cons t2 ts2 =>
      show (t ++ [sep]) ++ unparsePartsF [sep] f ((t2 :: ts2).map Blob.str) = _
      rw [ih f (by simp only [List.length_cons] at hfuel ⊢; omega)]
      simp [sepJoin, List.append_assoc]

theorem unparseTrim_single (sep : Char) (xs : List Char) :
    unparseTrim [sep] (xs ++ [sep]) = xs := by
  simp only [unparseTrim, List.length_singleton, Nat.lt_irrefl, List.length_append]
  rw [if_pos (by norm_num)]
  rw [show xs.length + 1 - 1 = xs.length from rfl]
  exact List.take_left xs [sep]

/-- C8 (amended).  For every canonically spaced paren-free leaf string - a
space-join of nonempty tokens free of `(`, `)` and the separator - tokenizing
with `_parse_tree(s, " ")` and re-joining with `_unparse_tree(tokens, " ")`
reproduces the string exactly.  (As the counterexample shows, strings with
leading, trailing or repeated separators are collapsed to this canonical form
instead of being preserved.) -/
theorem leaf_round_trip (ts : List (List Char))
    (hts : ∀ t ∈ ts, t ≠ [] ∧ ∀ c ∈ t, isTreeSpecial ' ' c = false) :
    leafRoundTrip (String.mk (sepJoin ' ' ts)) ' ' = some (String.mk (sepJoin ' ' ts)) := by
  have hlen : ts.length < (sepJoin ' ' ts).length + 1 :=
    Nat.lt_succ_of_le (sepJoin_length ' ' ts (fun t ht => (hts t ht).1))
  have hdata : (String.mk (sepJoin ' ' ts)).data = sepJoin ' ' ts := rfl
  unfold leafRoundTrip parse_tree
  rw [hdata]
  rw [parseTF_sepJoin ' ' (by decide) (by decide) ts _ hlen hts]
  show some (String.mk (unparseTrim [' ']
      (unparsePartsF [' '] ((sepJoin ' ' ts).length + 1) (List.map Blob.str ts)))) =
    some (String.mk (sepJoin ' ' ts))
  rw [unparseParts_strs ' ' ts _ hlen]
  cases ts with
  | nil => rfl
  | cons t ts2 =>
    simp only [List.isEmpty_cons, if_neg Bool.false_ne_true]
    rw [unparseTrim_single]

/-- C8 witness at a concrete canonical input. -/
theorem leaf_round_trip_witness :
    leafRoundTrip (String.mk (sepJoin ' ' [['a'], ['b', 'c']])) ' ' =
      some (String.mk (sepJoin ' ' [['a'], ['b', 'c']])) :=
  leaf_round_trip [['a'], ['b', 'c']] (by decide)

/-- The doctest values of `DDCInterface._checksum` from the source, evaluated
on the embedding. -/
theorem checksum_doctest_values :
    ddcChecksum [0x01, 0x02] none = some 3 ∧
    ddcChecksum [0x01, 0x02, 0x03] none = some 0 ∧
    ddcChecksum [0x01, 0x02] (some 0x50) = some 82 ∧
    ddcChecksum [0x01, 0x02, 0x03] (some 0x50) = some 81 := by
  refine ⟨rfl, rfl, rfl, rfl⟩

/-- A doctest of `DDCParser._parse_tree` with the space separator, evaluated
on the embedding. -/
theorem parse_tree_doctest :
    parse_tree "1 2 (A B (a)) 3 (! @)" ' ' =
      some ([Blob.str ['1'], Blob.str ['2'],
        Blob.node [Blob.str ['A'], Blob.str ['B'], Blob.node [Blob.str ['a']]],
        Blob.str ['3'], Blob.node [Blob.str ['!'], Blob.str ['@']]], none) := rfl

/-- The matching doctest of `DDCParser._unparse_tree`, evaluated on the
embedding. -/
theorem unparse_tree_doctest :
    String.mk (unparse_tree 32
      [Blob.str ['1'], Blob.str ['2'],
        Blob.node [Blob.str ['A'], Blob.str ['B'], Blob.node [Blob.str ['a']]],
        Blob.str ['3'], Blob.node [Blob.str ['!'], Blob.str ['@']]] [' ']) =
      "1 2 (A B (a)) 3 (! @)" := rfl

/-- The doctest of `DDCParser._convert_blobtree`, evaluated on the
embedding. -/
theorem convert_blobtree_doctest :
    convertBlobtreeF 16 [Blob.str ['0', '1'], Blob.str ['0', '2'],
        Blob.str ['F', 'F'], Blob.node [Blob.str ['0', '0']]] none [] =
      some [(1, none), (2, none), (255, some (HexTree.mk [(0, none)]))] := rfl

end DdcUsb



